import Mathlib

/-!
Shallow embedding of the retirement projection engine from
`src/components/RetirementSimulator.tsx` (functions `calculateScenario` and the
scenario-set builder in the `useEffect` hook).  JavaScript numbers are modelled
by exact rationals `ℚ`; ages are integers per the data model.  The year loop
`for (let year = 0; year <= yearsToRetirement; year++)` is modelled by a
fuel-indexed recursion `simFrom` whose fuel is the number of iterations
`(yearsToRetirement + 1).toNat` (zero when the horizon is negative).
-/

namespace VibeSim

/-- The `SimulationInputs` interface of the source. -/
structure SimulationInputs where
  currentAge : Int
  retirementAge : Int
  currentSavings : ℚ
  monthlyContribution : ℚ
  expectedReturn : ℚ
  inflationRate : ℚ
  retirementExpenses : ℚ
deriving DecidableEq, Repr

/-- `Partial<SimulationInputs>`: the `modifications` argument of
`calculateScenario`; every field optional. -/
structure ScenarioOverride where
  currentAge : Option Int := none
  retirementAge : Option Int := none
  currentSavings : Option ℚ := none
  monthlyContribution : Option ℚ := none
  expectedReturn : Option ℚ := none
  inflationRate : Option ℚ := none
  retirementExpenses : Option ℚ := none
deriving DecidableEq, Repr

/-- The spread `{ ...inputs, ...modifications }`: field-wise replacement where
an override field is present. -/
def applyMods (base : SimulationInputs) (m : ScenarioOverride) : SimulationInputs where
  currentAge := m.currentAge.getD base.currentAge
  retirementAge := m.retirementAge.getD base.retirementAge
  currentSavings := m.currentSavings.getD base.currentSavings
  monthlyContribution := m.monthlyContribution.getD base.monthlyContribution
  expectedReturn := m.expectedReturn.getD base.expectedReturn
  inflationRate := m.inflationRate.getD base.inflationRate
  retirementExpenses := m.retirementExpenses.getD base.retirementExpenses

/-- One row of the `data` array: `{ year, amount, realValue }`. -/
structure YearPoint where
  year : Int
  amount : ℚ
  realValue : ℚ
deriving DecidableEq, Repr

/-- The `ScenarioResult` interface of the source. -/
structure ScenarioResult where
  name : String
  finalAmount : ℚ
  monthlyIncome : ℚ
  yearsOfIncome : ℚ
  data : List YearPoint
  color : String
deriving DecidableEq, Repr

/-- One iteration of the inner month loop:
`amount = amount * (1 + monthlyReturn) + monthlyContribution`. -/
def monthlyStep (monthlyReturn monthlyContribution : ℚ) (amount : ℚ) : ℚ :=
  amount * (1 + monthlyReturn) + monthlyContribution

/-- The 12 monthly compounding-and-contribution steps applied in one non-final
year (`for (let month = 0; month < 12 && year < yearsToRetirement; month++)`
with the guard true throughout the year). -/
def growYear (monthlyReturn monthlyContribution : ℚ) (amount : ℚ) : ℚ :=
  (monthlyStep monthlyReturn monthlyContribution)^[12] amount

/-- The outer year loop of `calculateScenario`, from year index `y` with `f`
iterations remaining; returns the pushed `data` rows and the running `amount`
after the loop.  At each iteration the 12 monthly steps run exactly when
`year < yearsToRetirement`, then `realValue` is computed from the post-growth
amount and the row is pushed under age label `currentAge + year`. -/
def simFrom (ca Y : Int) (mr mc infl : ℚ) : Nat → Nat → ℚ → List YearPoint × ℚ
  | _, 0, a => ([], a)
  | y, f + 1, a =>
    let a2 := if (y : Int) < Y then growYear mr mc a else a
    let rv := a2 / (1 + infl / 100) ^ y
    let rest := simFrom ca Y mr mc infl (y + 1) f a2
    (⟨ca + y, a2, rv⟩ :: rest.1, rest.2)

/-- The engine `calculateScenario(inputs, name, color, modifications)`. -/
def calculateScenario (inputs : SimulationInputs) (name : String) (color : String)
    (modifications : ScenarioOverride) : ScenarioResult :=
  let m := applyMods inputs modifications
  let yearsToRetirement : Int := m.retirementAge - m.currentAge
  let monthlyReturn : ℚ := m.expectedReturn / 100 / 12
  let sim := simFrom m.currentAge yearsToRetirement monthlyReturn m.monthlyContribution
      m.inflationRate 0 (yearsToRetirement + 1).toNat m.currentSavings
  let finalAmount := sim.2
  let withdrawalRate : ℚ := 4 / 100
  let monthlyIncome := finalAmount * withdrawalRate / 12
  let realMonthlyIncome := monthlyIncome / (1 + m.inflationRate / 100) ^ yearsToRetirement
  let yearsOfIncome := finalAmount / (m.retirementExpenses * 12)
  { name := name
    finalAmount := finalAmount
    monthlyIncome := realMonthlyIncome
    yearsOfIncome := yearsOfIncome
    data := sim.1
    color := color }

/-- The scenario set builder (the `useEffect` body): five independent engine
calls against the same base inputs, in a fixed order with fixed names,
colors and overrides. -/
def buildScenarios (inputs : SimulationInputs) : List ScenarioResult :=
  [calculateScenario inputs "Base Case" "#0891b2" {},
   calculateScenario inputs "Inflation Spike (5%)" "#dc2626" { inflationRate := some 5 },
   calculateScenario inputs "Early Retirement (60)" "#7c3aed" { retirementAge := some 60 },
   calculateScenario inputs "Market Downturn (4% return)" "#ea580c" { expectedReturn := some 4 },
   calculateScenario inputs "Optimistic (10% return)" "#059669" { expectedReturn := some 10 }]

/-! ### Structural lemmas about the year loop -/

theorem simFrom_length (ca Y : Int) (mr mc infl : ℚ) :
    ∀ (f y : Nat) (a : ℚ), (simFrom ca Y mr mc infl y f a).1.length = f := by
  intro f
  induction f with
  | zero => intro y a; rfl
  | succ f ih => intro y a; simp [simFrom, ih]

theorem simFrom_year (ca Y : Int) (mr mc infl : ℚ) :
    ∀ (f y : Nat) (a : ℚ) (k : Nat) (hk : k < (simFrom ca Y mr mc infl y f a).1.length),
      ((simFrom ca Y mr mc infl y f a).1.get ⟨k, hk⟩).year = ca + y + k := by
  intro f
  induction f with
  | zero =>
    intro y a k hk
    rw [simFrom_length] at hk
    exact absurd hk (Nat.not_lt_zero k)
  | succ f ih =>
    intro y a k hk
    cases k with
    | zero => simp [simFrom]
    | succ k =>
      have hk2 : k < (simFrom ca Y mr mc infl (y + 1) f
          (if (y : Int) < Y then growYear mr mc a else a)).1.length := by
        rw [simFrom_length]
        rw [simFrom_length] at hk
        omega
      have := ih (y + 1) (if (y : Int) < Y then growYear mr mc a else a) k hk2
      simp only [simFrom, List.get_cons_succ] at this ⊢
      rw [this]
      push_cast
      ring

theorem simFrom_realValue (ca Y : Int) (mr mc infl : ℚ) :
    ∀ (f y : Nat) (a : ℚ) (k : Nat) (hk : k < (simFrom ca Y mr mc infl y f a).1.length),
      ((simFrom ca Y mr mc infl y f a).1.get ⟨k, hk⟩).realValue
        = ((simFrom ca Y mr mc infl y f a).1.get ⟨k, hk⟩).amount
            / (1 + infl / 100) ^ (y + k) := by
  intro f
  induction f with
  | zero =>
    intro y a k hk
    rw [simFrom_length] at hk
    exact absurd hk (Nat.not_lt_zero k)
  | succ f ih =>
    intro y a k hk
    cases k with
    | zero => simp [simFrom]
    | succ k =>
      have hk2 : k < (simFrom ca Y mr mc infl (y + 1) f
          (if (y : Int) < Y then growYear mr mc a else a)).1.length := by
        rw [simFrom_length]
        rw [simFrom_length] at hk
        omega
      have := ih (y + 1) (if (y : Int) < Y then growYear mr mc a else a) k hk2
      simp only [simFrom, List.get_cons_succ] at this ⊢
      rw [this]
      congr 2
      omega

theorem simFrom_amount (ca Y : Int) (mr mc infl : ℚ) :
    ∀ (f y : Nat) (a : ℚ), ((y : Int) + f = Y + 1) →
      ∀ (k : Nat) (hk : k < (simFrom ca Y mr mc infl y f a).1.length),
      ((simFrom ca Y mr mc infl y f a).1.get ⟨k, hk⟩).amount
        = (growYear mr mc)^[min (k + 1) (f - 1)] a := by
  intro f
  induction f with
  | zero =>
    intro y a _ k hk
    rw [simFrom_length] at hk
    exact absurd hk (Nat.not_lt_zero k)
  | succ f ih =>
    intro y a hy k hk
    cases k with
    | zero =>
      cases f with
      | zero =>
        have hyY : ¬((y : Int) < Y) := by omega
        simp [simFrom, hyY]
      | succ f =>
        have hyY : (y : Int) < Y := by omega
        have hmin : min (0 + 1) (f + 1 + 1 - 1) = 1 := by omega
        simp [simFrom, hyY, hmin]
    | succ k =>
      have hkf : k < f := by
        rw [simFrom_length] at hk
        omega
      have hyY : (y : Int) < Y := by omega
      have hk2 : k < (simFrom ca Y mr mc infl (y + 1) f
          (if (y : Int) < Y then growYear mr mc a else a)).1.length := by
        rw [simFrom_length]
        omega
      have heq := ih (y + 1) (if (y : Int) < Y then growYear mr mc a else a) (by omega) k hk2
      simp only [simFrom, List.get_cons_succ] at heq ⊢
      rw [heq, if_pos hyY, ← Function.iterate_succ_apply]
      congr 1
      omega

theorem simFrom_snd (ca Y : Int) (mr mc infl : ℚ) :
    ∀ (f y : Nat) (a : ℚ), ((y : Int) + f = Y + 1) →
      (simFrom ca Y mr mc infl y f a).2 = (growYear mr mc)^[f - 1] a := by
  intro f
  induction f with
  | zero => intro y a _; rfl
  | succ f ih =>
    intro y a hy
    cases f with
    | zero =>
      have hyY : ¬((y : Int) < Y) := by omega
      simp [simFrom, hyY]
    | succ f =>
      have hyY : (y : Int) < Y := by omega
      have hstep : (simFrom ca Y mr mc infl y (f + 1 + 1) a).2
          = (simFrom ca Y mr mc infl (y + 1) (f + 1)
              (if (y : Int) < Y then growYear mr mc a else a)).2 := rfl
      rw [hstep, ih (y + 1) _ (by omega), if_pos hyY, ← Function.iterate_succ_apply]
      congr 1

/-! ### Order lemmas about the monthly step and the yearly growth map -/

theorem monthlyStep_nonneg {mr mc a : ℚ} (hmr : 0 ≤ mr) (hmc : 0 ≤ mc) (ha : 0 ≤ a) :
    0 ≤ monthlyStep mr mc a := by
  unfold monthlyStep
  nlinarith

theorem le_monthlyStep {mr mc a : ℚ} (hmr : 0 ≤ mr) (hmc : 0 ≤ mc) (ha : 0 ≤ a) :
    a ≤ monthlyStep mr mc a := by
  unfold monthlyStep
  nlinarith

theorem monthlyStep_pos {mr mc a : ℚ} (hmr : 0 ≤ mr) (hmc : 0 ≤ mc) (ha : 0 < a) :
    0 < monthlyStep mr mc a := by
  unfold monthlyStep
  nlinarith

theorem lt_monthlyStep {mr mc a : ℚ} (hmr : 0 < mr) (hmc : 0 ≤ mc) (ha : 0 < a) :
    a < monthlyStep mr mc a := by
  unfold monthlyStep
  nlinarith

theorem iterate_monthlyStep_nonneg {mr mc : ℚ} (hmr : 0 ≤ mr) (hmc : 0 ≤ mc) :
    ∀ (n : Nat) (a : ℚ), 0 ≤ a → 0 ≤ (monthlyStep mr mc)^[n] a := by
  intro n
  induction n with
  | zero => intro a ha; exact ha
  | succ n ih =>
    intro a ha
    rw [Function.iterate_succ_apply]
    exact ih _ (monthlyStep_nonneg hmr hmc ha)

theorem le_iterate_monthlyStep {mr mc : ℚ} (hmr : 0 ≤ mr) (hmc : 0 ≤ mc) :
    ∀ (n : Nat) (a : ℚ), 0 ≤ a → a ≤ (monthlyStep mr mc)^[n] a := by
  intro n
  induction n with
  | zero => intro a _; exact le_refl a
  | succ n ih =>
    intro a ha
    rw [Function.iterate_succ_apply']
    exact le_trans (ih a ha)
      (le_monthlyStep hmr hmc (iterate_monthlyStep_nonneg hmr hmc n a ha))

theorem growYear_nonneg {mr mc a : ℚ} (hmr : 0 ≤ mr) (hmc : 0 ≤ mc) (ha : 0 ≤ a) :
    0 ≤ growYear mr mc a :=
  iterate_monthlyStep_nonneg hmr hmc 12 a ha

theorem le_growYear {mr mc a : ℚ} (hmr : 0 ≤ mr) (hmc : 0 ≤ mc) (ha : 0 ≤ a) :
    a ≤ growYear mr mc a :=
  le_iterate_monthlyStep hmr hmc 12 a ha

theorem lt_growYear_of_pos {mr mc a : ℚ} (hmr : 0 < mr) (hmc : 0 ≤ mc) (ha : 0 < a) :
    a < growYear mr mc a := by
  unfold growYear
  rw [show (12 : Nat) = 11 + 1 from rfl, Function.iterate_succ_apply]
  have h1 : a < monthlyStep mr mc a := lt_monthlyStep hmr hmc ha
  have h2 : 0 ≤ monthlyStep mr mc a := le_of_lt (monthlyStep_pos (le_of_lt hmr) hmc ha)
  exact lt_of_lt_of_le h1 (le_iterate_monthlyStep (le_of_lt hmr) hmc 11 _ h2)

theorem growYear_pos_of_contribution {mr mc a : ℚ} (hmr : 0 ≤ mr) (hmc : 0 < mc)
    (ha : 0 ≤ a) : 0 < growYear mr mc a := by
  unfold growYear
  rw [show (12 : Nat) = 11 + 1 from rfl, Function.iterate_succ_apply]
  have h1 : 0 < monthlyStep mr mc a := by
    unfold monthlyStep
    nlinarith
  exact lt_of_lt_of_le h1
    (le_iterate_monthlyStep hmr (le_of_lt hmc) 11 _ (le_of_lt h1))

theorem lt_growYear {mr mc a : ℚ} (hmr : 0 < mr) (hmc : 0 ≤ mc) (ha : 0 ≤ a)
    (hpos : 0 < a ∨ 0 < mc) : a < growYear mr mc a := by
  rcases lt_or_eq_of_le ha with hapos | hzero
  · exact lt_growYear_of_pos hmr hmc hapos
  · rcases hpos with hapos | hmcpos
    · exact lt_growYear_of_pos hmr hmc hapos
    · rw [← hzero]
      exact growYear_pos_of_contribution (le_of_lt hmr) hmcpos (le_refl 0)

theorem iterate_growYear_nonneg {mr mc : ℚ} (hmr : 0 ≤ mr) (hmc : 0 ≤ mc) :
    ∀ (n : Nat) (a : ℚ), 0 ≤ a → 0 ≤ (growYear mr mc)^[n] a := by
  intro n
  induction n with
  | zero => intro a ha; exact ha
  | succ n ih =>
    intro a ha
    rw [Function.iterate_succ_apply]
    exact ih _ (growYear_nonneg hmr hmc ha)

theorem le_iterate_growYear {mr mc : ℚ} (hmr : 0 ≤ mr) (hmc : 0 ≤ mc) :
    ∀ (n : Nat) (a : ℚ), 0 ≤ a → a ≤ (growYear mr mc)^[n] a := by
  intro n
  induction n with
  | zero => intro a _; exact le_refl a
  | succ n ih =>
    intro a ha
    rw [Function.iterate_succ_apply']
    exact le_trans (ih a ha)
      (le_growYear hmr hmc (iterate_growYear_nonneg hmr hmc n a ha))

theorem iterate_growYear_le_iterate {mr mc a : ℚ} (hmr : 0 ≤ mr) (hmc : 0 ≤ mc)
    (ha : 0 ≤ a) {m n : Nat} (hmn : m ≤ n) :
    (growYear mr mc)^[m] a ≤ (growYear mr mc)^[n] a := by
  have hdecomp : n = (n - m) + m := by omega
  rw [hdecomp, Function.iterate_add_apply]
  exact le_iterate_growYear hmr hmc (n - m) _ (iterate_growYear_nonneg hmr hmc m a ha)

theorem lt_iterate_growYear {mr mc a : ℚ} (hmr : 0 < mr) (hmc : 0 ≤ mc) (ha : 0 ≤ a)
    (hpos : 0 < a ∨ 0 < mc) {n : Nat} (hn : 1 ≤ n) :
    a < (growYear mr mc)^[n] a := by
  have hdecomp : n = (n - 1) + 1 := by omega
  rw [hdecomp, Function.iterate_add_apply, Function.iterate_one]
  have h1 : a < growYear mr mc a := lt_growYear hmr hmc ha hpos
  have h2 : 0 ≤ growYear mr mc a := growYear_nonneg (le_of_lt hmr) hmc ha
  exact lt_of_lt_of_le h1 (le_iterate_growYear (le_of_lt hmr) hmc (n - 1) _ h2)

/-! ### Unfolding the engine to the year loop -/

theorem calculateScenario_data (i : SimulationInputs) (n c : String) (ov : ScenarioOverride) :
    (calculateScenario i n c ov).data
      = (simFrom (applyMods i ov).currentAge
          ((applyMods i ov).retirementAge - (applyMods i ov).currentAge)
          ((applyMods i ov).expectedReturn / 100 / 12)
          (applyMods i ov).monthlyContribution
          (applyMods i ov).inflationRate 0
          ((applyMods i ov).retirementAge - (applyMods i ov).currentAge + 1).toNat
          (applyMods i ov).currentSavings).1 := rfl

theorem calculateScenario_finalAmount (i : SimulationInputs) (n c : String)
    (ov : ScenarioOverride) :
    (calculateScenario i n c ov).finalAmount
      = (simFrom (applyMods i ov).currentAge
          ((applyMods i ov).retirementAge - (applyMods i ov).currentAge)
          ((applyMods i ov).expectedReturn / 100 / 12)
          (applyMods i ov).monthlyContribution
          (applyMods i ov).inflationRate 0
          ((applyMods i ov).retirementAge - (applyMods i ov).currentAge + 1).toNat
          (applyMods i ov).currentSavings).2 := rfl

/-- Example inputs with a two-year horizon, zero return and unit contribution,
used to instantiate hypotheses in witnesses. -/
def exW : SimulationInputs := ⟨30, 32, 10, 1, 0, 0, 100⟩

/-- Example inputs with a two-year horizon and a positive return, used to
instantiate hypotheses in witnesses that need strict growth. -/
def exG : SimulationInputs := ⟨30, 32, 1, 1, 1200, 0, 100⟩

/-- Example inputs with retirementAge < currentAge (negative horizon). -/
def negHorizonInputs : SimulationInputs := ⟨40, 30, 1000, 200, 7, 3, 500⟩

/-! ### Claim theorems -/

/-- C1 (counterexample to the claim as stated): at a negative horizon the
trajectory the engine returns is empty, not a single point. -/
theorem c1_counterexample :
    negHorizonInputs.retirementAge - negHorizonInputs.currentAge < 0 ∧
    (calculateScenario negHorizonInputs "Base Case" "#0891b2" {}).data.length = 0 ∧
    (calculateScenario negHorizonInputs "Base Case" "#0891b2" {}).data.length ≠ 1 := by
  decide

/-- C1 (amended): for every input whose yearsToRetirement is negative, the
engine returns, without raising an error, a degenerate result whose trajectory
is empty, whose finalAmount is currentSavings, and whose yearsOfIncomeCoverage
is computed from that amount with no growth simulated. -/
theorem c1_negativeHorizon_degenerate (i : SimulationInputs) (n c : String)
    (ov : ScenarioOverride) (e : SimulationInputs) (he : applyMods i ov = e)
    (hneg : e.retirementAge - e.currentAge < 0) :
    (calculateScenario i n c ov).data = [] ∧
    (calculateScenario i n c ov).finalAmount = e.currentSavings ∧
    (calculateScenario i n c ov).yearsOfIncome
      = e.currentSavings / (e.retirementExpenses * 12) := by
  subst he
  have hf : ((applyMods i ov).retirementAge - (applyMods i ov).currentAge + 1).toNat = 0 := by
    omega
  refine ⟨?_, ?_, ?_⟩
  · rw [calculateScenario_data, hf]
    rfl
  · rw [calculateScenario_finalAmount, hf]
    rfl
  · show (simFrom _ _ _ _ _ 0
        ((applyMods i ov).retirementAge - (applyMods i ov).currentAge + 1).toNat
        (applyMods i ov).currentSavings).2 / ((applyMods i ov).retirementExpenses * 12) = _
    rw [hf]
    rfl

/-- C1 witness: the amended theorem applied to `negHorizonInputs`. -/
theorem c1_negativeHorizon_degenerate_witness :
    applyMods negHorizonInputs {} = negHorizonInputs ∧
    negHorizonInputs.retirementAge - negHorizonInputs.currentAge < 0 ∧
    ((calculateScenario negHorizonInputs "n" "c" {}).data = [] ∧
     (calculateScenario negHorizonInputs "n" "c" {}).finalAmount
       = negHorizonInputs.currentSavings ∧
     (calculateScenario negHorizonInputs "n" "c" {}).yearsOfIncome
       = negHorizonInputs.currentSavings / (negHorizonInputs.retirementExpenses * 12)) :=
  ⟨rfl, by decide,
    c1_negativeHorizon_degenerate negHorizonInputs "n" "c" {} negHorizonInputs rfl (by decide)⟩

/-- C3: buildScenarios returns exactly 5 results, in the fixed order of names
with "Base Case" first, each produced by an independent engine call against the
same base inputs, and the "Base Case" entry equals
`calculateScenario base "Base Case" "#0891b2" {}` exactly. -/
theorem c3_scenarioCatalogue (i : SimulationInputs) :
    (buildScenarios i).length = 5 ∧
    (buildScenarios i).map ScenarioResult.name
      = ["Base Case", "Inflation Spike (5%)", "Early Retirement (60)",
         "Market Downturn (4% return)", "Optimistic (10% return)"] ∧
    (buildScenarios i).head? = some (calculateScenario i "Base Case" "#0891b2" {}) ∧
    buildScenarios i
      = [calculateScenario i "Base Case" "#0891b2" {},
         calculateScenario i "Inflation Spike (5%)" "#dc2626" { inflationRate := some 5 },
         calculateScenario i "Early Retirement (60)" "#7c3aed" { retirementAge := some 60 },
         calculateScenario i "Market Downturn (4% return)" "#ea580c" { expectedReturn := some 4 },
         calculateScenario i "Optimistic (10% return)" "#059669" { expectedReturn := some 10 }] := by
  refine ⟨rfl, ?_, rfl, rfl⟩
  simp [buildScenarios, calculateScenario]

/-- C7: sustainableMonthlyIncome equals a 4% annual withdrawal divided into
monthly income, discounted back to present-day purchasing power over the
retirement horizon. -/
theorem c7_sustainableIncome (i : SimulationInputs) (n c : String) (ov : ScenarioOverride)
    (e : SimulationInputs) (he : applyMods i ov = e) :
    (calculateScenario i n c ov).monthlyIncome
      = (calculateScenario i n c ov).finalAmount * (4 / 100) / 12
          / (1 + e.inflationRate / 100) ^ (e.retirementAge - e.currentAge) := by
  subst he
  rfl

/-- C7 witness: the theorem applied to `exW`. -/
theorem c7_sustainableIncome_witness :
    applyMods exW {} = exW ∧
    (calculateScenario exW "n" "c" {}).monthlyIncome
      = (calculateScenario exW "n" "c" {}).finalAmount * (4 / 100) / 12
          / (1 + exW.inflationRate / 100) ^ (exW.retirementAge - exW.currentAge) :=
  ⟨rfl, c7_sustainableIncome exW "n" "c" {} exW rfl⟩

/-- C8: yearsOfIncomeCoverage equals finalAmount / (retirementExpenses * 12)
with no inflation adjustment; the formula is applied unconditionally, with no
special case at retirementExpenses = 0. -/
theorem c8_yearsOfIncomeRatio (i : SimulationInputs) (n c : String) (ov : ScenarioOverride)
    (e : SimulationInputs) (he : applyMods i ov = e) :
    (calculateScenario i n c ov).yearsOfIncome
      = (calculateScenario i n c ov).finalAmount / (e.retirementExpenses * 12) := by
  subst he
  rfl

/-- C8 witness: the theorem applied to an input with retirementExpenses = 0. -/
theorem c8_yearsOfIncomeRatio_witness :
    applyMods ⟨30, 32, 10, 1, 0, 0, 0⟩ {} = (⟨30, 32, 10, 1, 0, 0, 0⟩ : SimulationInputs) ∧
    (calculateScenario ⟨30, 32, 10, 1, 0, 0, 0⟩ "n" "c" {}).yearsOfIncome
      = (calculateScenario ⟨30, 32, 10, 1, 0, 0, 0⟩ "n" "c" {}).finalAmount
          / ((⟨30, 32, 10, 1, 0, 0, 0⟩ : SimulationInputs).retirementExpenses * 12) :=
  ⟨rfl, c8_yearsOfIncomeRatio ⟨30, 32, 10, 1, 0, 0, 0⟩ "n" "c" {} ⟨30, 32, 10, 1, 0, 0, 0⟩ rfl⟩

/-- C6: every trajectory point at yearOffset k has
realAmount = nominalAmount / (1 + inflationRate/100)^k; in particular at
yearOffset 0 realAmount equals nominalAmount. -/
theorem c6_realDiscounting (i : SimulationInputs) (n c : String) (ov : ScenarioOverride)
    (e : SimulationInputs) (he : applyMods i ov = e) :
    (∀ (k : Nat) (hk : k < (calculateScenario i n c ov).data.length),
        ((calculateScenario i n c ov).data.get ⟨k, hk⟩).realValue
          = ((calculateScenario i n c ov).data.get ⟨k, hk⟩).amount
              / (1 + e.inflationRate / 100) ^ k) ∧
    (∀ (h0 : 0 < (calculateScenario i n c ov).data.length),
        ((calculateScenario i n c ov).data.get ⟨0, h0⟩).realValue
          = ((calculateScenario i n c ov).data.get ⟨0, h0⟩).amount) := by
  subst he
  have hmain : ∀ (k : Nat) (hk : k < (calculateScenario i n c ov).data.length),
      ((calculateScenario i n c ov).data.get ⟨k, hk⟩).realValue
        = ((calculateScenario i n c ov).data.get ⟨k, hk⟩).amount
            / (1 + (applyMods i ov).inflationRate / 100) ^ k := by
    intro k hk
    have h := simFrom_realValue (applyMods i ov).currentAge
      ((applyMods i ov).retirementAge - (applyMods i ov).currentAge)
      ((applyMods i ov).expectedReturn / 100 / 12) (applyMods i ov).monthlyContribution
      (applyMods i ov).inflationRate
      ((applyMods i ov).retirementAge - (applyMods i ov).currentAge + 1).toNat 0
      (applyMods i ov).currentSavings k hk
    simpa using h
  refine ⟨hmain, ?_⟩
  intro h0
  have h := hmain 0 h0
  simpa using h

/-- C6 witness: the theorem applied to `exW`. -/
theorem c6_realDiscounting_witness :
    applyMods exW {} = exW ∧
    ((∀ (k : Nat) (hk : k < (calculateScenario exW "n" "c" {}).data.length),
        ((calculateScenario exW "n" "c" {}).data.get ⟨k, hk⟩).realValue
          = ((calculateScenario exW "n" "c" {}).data.get ⟨k, hk⟩).amount
              / (1 + exW.inflationRate / 100) ^ k) ∧
     (∀ (h0 : 0 < (calculateScenario exW "n" "c" {}).data.length),
        ((calculateScenario exW "n" "c" {}).data.get ⟨0, h0⟩).realValue
          = ((calculateScenario exW "n" "c" {}).data.get ⟨0, h0⟩).amount)) :=
  ⟨rfl, c6_realDiscounting exW "n" "c" {} exW rfl⟩

/-- C4: for yearsToRetirement = Y ≥ 0 the trajectory has exactly Y + 1 points,
the point at index k carries age currentAge + k (hence ages are strictly
increasing by 1, starting at currentAge), and the last point carries age
retirementAge. -/
theorem c4_trajectoryShape (i : SimulationInputs) (n c : String) (ov : ScenarioOverride)
    (e : SimulationInputs) (he : applyMods i ov = e)
    (hY : 0 ≤ e.retirementAge - e.currentAge) :
    ((calculateScenario i n c ov).data.length
        = (e.retirementAge - e.currentAge).toNat + 1) ∧
    (∀ (k : Nat) (hk : k < (calculateScenario i n c ov).data.length),
        ((calculateScenario i n c ov).data.get ⟨k, hk⟩).year = e.currentAge + k) ∧
    (∀ (hlast : (calculateScenario i n c ov).data.length - 1
        < (calculateScenario i n c ov).data.length),
        ((calculateScenario i n c ov).data.get
            ⟨(calculateScenario i n c ov).data.length - 1, hlast⟩).year
          = e.retirementAge) := by
  subst he
  have hlen : (calculateScenario i n c ov).data.length
      = ((applyMods i ov).retirementAge - (applyMods i ov).currentAge + 1).toNat := by
    rw [calculateScenario_data, simFrom_length]
  have hages : ∀ (k : Nat) (hk : k < (calculateScenario i n c ov).data.length),
      ((calculateScenario i n c ov).data.get ⟨k, hk⟩).year
        = (applyMods i ov).currentAge + k := by
    intro k hk
    have h := simFrom_year (applyMods i ov).currentAge
      ((applyMods i ov).retirementAge - (applyMods i ov).currentAge)
      ((applyMods i ov).expectedReturn / 100 / 12) (applyMods i ov).monthlyContribution
      (applyMods i ov).inflationRate
      ((applyMods i ov).retirementAge - (applyMods i ov).currentAge + 1).toNat 0
      (applyMods i ov).currentSavings k hk
    simpa using h
  refine ⟨by rw [hlen]; omega, hages, ?_⟩
  intro hlast
  rw [hages ((calculateScenario i n c ov).data.length - 1) hlast, hlen]
  omega

/-- C4 witness: the theorem applied to `exW`. -/
theorem c4_trajectoryShape_witness :
    applyMods exW {} = exW ∧
    (0 : Int) ≤ exW.retirementAge - exW.currentAge ∧
    (((calculateScenario exW "n" "c" {}).data.length
        = (exW.retirementAge - exW.currentAge).toNat + 1) ∧
     (∀ (k : Nat) (hk : k < (calculateScenario exW "n" "c" {}).data.length),
        ((calculateScenario exW "n" "c" {}).data.get ⟨k, hk⟩).year = exW.currentAge + k) ∧
     (∀ (hlast : (calculateScenario exW "n" "c" {}).data.length - 1
        < (calculateScenario exW "n" "c" {}).data.length),
        ((calculateScenario exW "n" "c" {}).data.get
            ⟨(calculateScenario exW "n" "c" {}).data.length - 1, hlast⟩).year
          = exW.retirementAge)) :=
  ⟨rfl, by decide, c4_trajectoryShape exW "n" "c" {} exW rfl (by decide)⟩

/-- C2: with monthlyRate = expectedReturn / 100 / 12, the trajectory amount at
index k is the 12-fold monthly recurrence
`amount = amount * (1 + monthlyRate) + monthlyContribution` applied
year-by-year min (k + 1) Y times starting from currentSavings: each of the Y
non-final years contributes exactly 12 monthly steps and the final year
contributes zero. -/
theorem c2_monthlyRecurrence (i : SimulationInputs) (n c : String) (ov : ScenarioOverride)
    (e : SimulationInputs) (he : applyMods i ov = e)
    (hY : 0 ≤ e.retirementAge - e.currentAge) :
    ∀ (k : Nat) (hk : k < (calculateScenario i n c ov).data.length),
      ((calculateScenario i n c ov).data.get ⟨k, hk⟩).amount
        = ((monthlyStep (e.expectedReturn / 100 / 12) e.monthlyContribution)^[12])^[
            min (k + 1) (e.retirementAge - e.currentAge).toNat] e.currentSavings := by
  subst he
  intro k hk
  have hconstraint : ((0 : Nat) : Int)
      + (((applyMods i ov).retirementAge - (applyMods i ov).currentAge + 1).toNat : Int)
      = ((applyMods i ov).retirementAge - (applyMods i ov).currentAge) + 1 := by
    omega
  have h := simFrom_amount (applyMods i ov).currentAge
    ((applyMods i ov).retirementAge - (applyMods i ov).currentAge)
    ((applyMods i ov).expectedReturn / 100 / 12) (applyMods i ov).monthlyContribution
    (applyMods i ov).inflationRate
    ((applyMods i ov).retirementAge - (applyMods i ov).currentAge + 1).toNat 0
    (applyMods i ov).currentSavings hconstraint k hk
  have hcnt : ((applyMods i ov).retirementAge - (applyMods i ov).currentAge + 1).toNat - 1
      = ((applyMods i ov).retirementAge - (applyMods i ov).currentAge).toNat := by
    omega
  rw [hcnt] at h
  exact h

/-- C2 witness: the theorem applied to `exW`. -/
theorem c2_monthlyRecurrence_witness :
    applyMods exW {} = exW ∧
    (0 : Int) ≤ exW.retirementAge - exW.currentAge ∧
    (∀ (k : Nat) (hk : k < (calculateScenario exW "n" "c" {}).data.length),
      ((calculateScenario exW "n" "c" {}).data.get ⟨k, hk⟩).amount
        = ((monthlyStep (exW.expectedReturn / 100 / 12) exW.monthlyContribution)^[12])^[
            min (k + 1) (exW.retirementAge - exW.currentAge).toNat] exW.currentSavings) :=
  ⟨rfl, by decide, c2_monthlyRecurrence exW "n" "c" {} exW rfl (by decide)⟩

/-- C5: for yearsToRetirement ≥ 1 the last two trajectory points have equal
nominalAmount (the terminal year applies no growth), and finalAmount equals
the nominalAmount of the last trajectory point. -/
theorem c5_terminalDuplicate (i : SimulationInputs) (n c : String) (ov : ScenarioOverride)
    (e : SimulationInputs) (he : applyMods i ov = e)
    (hY1 : 1 ≤ e.retirementAge - e.currentAge) :
    (∀ (h1 : (calculateScenario i n c ov).data.length - 2
          < (calculateScenario i n c ov).data.length)
       (h2 : (calculateScenario i n c ov).data.length - 1
          < (calculateScenario i n c ov).data.length),
        ((calculateScenario i n c ov).data.get
            ⟨(calculateScenario i n c ov).data.length - 2, h1⟩).amount
          = ((calculateScenario i n c ov).data.get
              ⟨(calculateScenario i n c ov).data.length - 1, h2⟩).amount) ∧
    (∀ (h2 : (calculateScenario i n c ov).data.length - 1
          < (calculateScenario i n c ov).data.length),
        (calculateScenario i n c ov).finalAmount
          = ((calculateScenario i n c ov).data.get
              ⟨(calculateScenario i n c ov).data.length - 1, h2⟩).amount) := by
  subst he
  have hconstraint : ((0 : Nat) : Int)
      + (((applyMods i ov).retirementAge - (applyMods i ov).currentAge + 1).toNat : Int)
      = ((applyMods i ov).retirementAge - (applyMods i ov).currentAge) + 1 := by
    omega
  have hlen : (calculateScenario i n c ov).data.length
      = ((applyMods i ov).retirementAge - (applyMods i ov).currentAge + 1).toNat := by
    rw [calculateScenario_data, simFrom_length]
  constructor
  · intro h1 h2
    have hA := simFrom_amount (applyMods i ov).currentAge
      ((applyMods i ov).retirementAge - (applyMods i ov).currentAge)
      ((applyMods i ov).expectedReturn / 100 / 12) (applyMods i ov).monthlyContribution
      (applyMods i ov).inflationRate
      ((applyMods i ov).retirementAge - (applyMods i ov).currentAge + 1).toNat 0
      (applyMods i ov).currentSavings hconstraint
      ((calculateScenario i n c ov).data.length - 2) h1
    have hB := simFrom_amount (applyMods i ov).currentAge
      ((applyMods i ov).retirementAge - (applyMods i ov).currentAge)
      ((applyMods i ov).expectedReturn / 100 / 12) (applyMods i ov).monthlyContribution
      (applyMods i ov).inflationRate
      ((applyMods i ov).retirementAge - (applyMods i ov).currentAge + 1).toNat 0
      (applyMods i ov).currentSavings hconstraint
      ((calculateScenario i n c ov).data.length - 1) h2
    have hmin : min ((calculateScenario i n c ov).data.length - 2 + 1)
          (((applyMods i ov).retirementAge - (applyMods i ov).currentAge + 1).toNat - 1)
        = min ((calculateScenario i n c ov).data.length - 1 + 1)
          (((applyMods i ov).retirementAge - (applyMods i ov).currentAge + 1).toNat - 1) := by
      omega
    rw [hmin] at hA
    exact hA.trans hB.symm
  · intro h2
    have hS := simFrom_snd (applyMods i ov).currentAge
      ((applyMods i ov).retirementAge - (applyMods i ov).currentAge)
      ((applyMods i ov).expectedReturn / 100 / 12) (applyMods i ov).monthlyContribution
      (applyMods i ov).inflationRate
      ((applyMods i ov).retirementAge - (applyMods i ov).currentAge + 1).toNat 0
      (applyMods i ov).currentSavings hconstraint
    have hB := simFrom_amount (applyMods i ov).currentAge
      ((applyMods i ov).retirementAge - (applyMods i ov).currentAge)
      ((applyMods i ov).expectedReturn / 100 / 12) (applyMods i ov).monthlyContribution
      (applyMods i ov).inflationRate
      ((applyMods i ov).retirementAge - (applyMods i ov).currentAge + 1).toNat 0
      (applyMods i ov).currentSavings hconstraint
      ((calculateScenario i n c ov).data.length - 1) h2
    have hmin : min ((calculateScenario i n c ov).data.length - 1 + 1)
          (((applyMods i ov).retirementAge - (applyMods i ov).currentAge + 1).toNat - 1)
        = ((applyMods i ov).retirementAge - (applyMods i ov).currentAge + 1).toNat - 1 := by
      omega
    rw [hmin] at hB
    exact hS.trans hB.symm

/-- C5 witness: the theorem applied to `exW`. -/
theorem c5_terminalDuplicate_witness :
    applyMods exW {} = exW ∧
    (1 : Int) ≤ exW.retirementAge - exW.currentAge ∧
    ((∀ (h1 : (calculateScenario exW "n" "c" {}).data.length - 2
          < (calculateScenario exW "n" "c" {}).data.length)
       (h2 : (calculateScenario exW "n" "c" {}).data.length - 1
          < (calculateScenario exW "n" "c" {}).data.length),
        ((calculateScenario exW "n" "c" {}).data.get
            ⟨(calculateScenario exW "n" "c" {}).data.length - 2, h1⟩).amount
          = ((calculateScenario exW "n" "c" {}).data.get
              ⟨(calculateScenario exW "n" "c" {}).data.length - 1, h2⟩).amount) ∧
     (∀ (h2 : (calculateScenario exW "n" "c" {}).data.length - 1
          < (calculateScenario exW "n" "c" {}).data.length),
        (calculateScenario exW "n" "c" {}).finalAmount
          = ((calculateScenario exW "n" "c" {}).data.get
              ⟨(calculateScenario exW "n" "c" {}).data.length - 1, h2⟩).amount)) :=
  ⟨rfl, by decide, c5_terminalDuplicate exW "n" "c" {} exW rfl (by decide)⟩

/-- C9: with currentSavings ≥ 0, monthlyContribution ≥ 0 and
expectedReturn ≥ 0, nominalAmount is non-decreasing across consecutive
trajectory points. -/
theorem c9_monotoneGrowth (i : SimulationInputs) (n c : String) (ov : ScenarioOverride)
    (e : SimulationInputs) (he : applyMods i ov = e)
    (hs : 0 ≤ e.currentSavings) (hmc : 0 ≤ e.monthlyContribution)
    (hr : 0 ≤ e.expectedReturn) :
    ∀ (k : Nat) (hk1 : k + 1 < (calculateScenario i n c ov).data.length),
      ((calculateScenario i n c ov).data.get ⟨k, Nat.lt_of_succ_lt hk1⟩).amount
        ≤ ((calculateScenario i n c ov).data.get ⟨k + 1, hk1⟩).amount := by
  subst he
  intro k hk1
  have hlen : (calculateScenario i n c ov).data.length
      = ((applyMods i ov).retirementAge - (applyMods i ov).currentAge + 1).toNat := by
    rw [calculateScenario_data, simFrom_length]
  have hconstraint : ((0 : Nat) : Int)
      + (((applyMods i ov).retirementAge - (applyMods i ov).currentAge + 1).toNat : Int)
      = ((applyMods i ov).retirementAge - (applyMods i ov).currentAge) + 1 := by
    omega
  have hA := simFrom_amount (applyMods i ov).currentAge
    ((applyMods i ov).retirementAge - (applyMods i ov).currentAge)
    ((applyMods i ov).expectedReturn / 100 / 12) (applyMods i ov).monthlyContribution
    (applyMods i ov).inflationRate
    ((applyMods i ov).retirementAge - (applyMods i ov).currentAge + 1).toNat 0
    (applyMods i ov).currentSavings hconstraint k (Nat.lt_of_succ_lt hk1)
  have hB := simFrom_amount (applyMods i ov).currentAge
    ((applyMods i ov).retirementAge - (applyMods i ov).currentAge)
    ((applyMods i ov).expectedReturn / 100 / 12) (applyMods i ov).monthlyContribution
    (applyMods i ov).inflationRate
    ((applyMods i ov).retirementAge - (applyMods i ov).currentAge + 1).toNat 0
    (applyMods i ov).currentSavings hconstraint (k + 1) hk1
  have hmr : 0 ≤ (applyMods i ov).expectedReturn / 100 / 12 := by positivity
  calc ((calculateScenario i n c ov).data.get ⟨k, Nat.lt_of_succ_lt hk1⟩).amount
      = (growYear ((applyMods i ov).expectedReturn / 100 / 12)
          (applyMods i ov).monthlyContribution)^[min (k + 1)
            (((applyMods i ov).retirementAge - (applyMods i ov).currentAge + 1).toNat - 1)]
          (applyMods i ov).currentSavings := hA
    _ ≤ (growYear ((applyMods i ov).expectedReturn / 100 / 12)
          (applyMods i ov).monthlyContribution)^[min (k + 1 + 1)
            (((applyMods i ov).retirementAge - (applyMods i ov).currentAge + 1).toNat - 1)]
          (applyMods i ov).currentSavings :=
        iterate_growYear_le_iterate hmr hmc hs (by omega)
    _ = ((calculateScenario i n c ov).data.get ⟨k + 1, hk1⟩).amount := hB.symm

/-- C9 witness: the theorem applied to `exW`. -/
theorem c9_monotoneGrowth_witness :
    applyMods exW {} = exW ∧
    (0 : ℚ) ≤ exW.currentSavings ∧
    (0 : ℚ) ≤ exW.monthlyContribution ∧
    (0 : ℚ) ≤ exW.expectedReturn ∧
    (∀ (k : Nat) (hk1 : k + 1 < (calculateScenario exW "n" "c" {}).data.length),
      ((calculateScenario exW "n" "c" {}).data.get ⟨k, Nat.lt_of_succ_lt hk1⟩).amount
        ≤ ((calculateScenario exW "n" "c" {}).data.get ⟨k + 1, hk1⟩).amount) :=
  ⟨rfl, by decide, by decide, by decide,
    c9_monotoneGrowth exW "n" "c" {} exW rfl (by decide) (by decide) (by decide)⟩

/-- Inputs with zero savings, zero contribution and a nonzero return, used to
refute the second half of C10 as stated. -/
def zeroSavingsInputs : SimulationInputs := ⟨30, 31, 0, 0, 12, 3, 500⟩

/-- C10 (counterexample to the claim as stated): with currentSavings = 0,
monthlyContribution = 0 and expectedReturn = 12 ≠ 0, the first trajectory
point still equals the starting savings. -/
theorem c10_counterexample :
    zeroSavingsInputs.monthlyContribution = 0 ∧
    zeroSavingsInputs.expectedReturn ≠ 0 ∧
    1 ≤ zeroSavingsInputs.retirementAge - zeroSavingsInputs.currentAge ∧
    ((calculateScenario zeroSavingsInputs "n" "c" {}).data.map YearPoint.amount).head?
      = some zeroSavingsInputs.currentSavings := by
  refine ⟨rfl, by norm_num [zeroSavingsInputs], by decide, ?_⟩
  have hfix : monthlyStep ((12 : ℚ) / 100 / 12) 0 0 = 0 := by
    simp [monthlyStep]
  show some (growYear ((12 : ℚ) / 100 / 12) 0 0) = some (0 : ℚ)
  exact congrArg some (Function.iterate_fixed hfix 12)

/-- C10 (amended): for yearsToRetirement ≥ 1 and inputs in the §3 domains with
a positive expected return, the first trajectory point records the balance
after the first year's full 12 monthly compounding-and-contribution steps, and
if moreover currentSavings > 0 or monthlyContribution > 0 then no trajectory
point equals the starting savings. -/
theorem c10_firstYearGrowth (i : SimulationInputs) (n c : String) (ov : ScenarioOverride)
    (e : SimulationInputs) (he : applyMods i ov = e)
    (hY1 : 1 ≤ e.retirementAge - e.currentAge)
    (hs : 0 ≤ e.currentSavings) (hmc : 0 ≤ e.monthlyContribution)
    (hr : 0 < e.expectedReturn)
    (hpos : 0 < e.currentSavings ∨ 0 < e.monthlyContribution) :
    (∀ (h0 : 0 < (calculateScenario i n c ov).data.length),
        ((calculateScenario i n c ov).data.get ⟨0, h0⟩).amount
          = (monthlyStep (e.expectedReturn / 100 / 12) e.monthlyContribution)^[12]
              e.currentSavings) ∧
    (∀ p ∈ (calculateScenario i n c ov).data, p.amount ≠ e.currentSavings) := by
  subst he
  have hconstraint : ((0 : Nat) : Int)
      + (((applyMods i ov).retirementAge - (applyMods i ov).currentAge + 1).toNat : Int)
      = ((applyMods i ov).retirementAge - (applyMods i ov).currentAge) + 1 := by
    omega
  have hlen : (calculateScenario i n c ov).data.length
      = ((applyMods i ov).retirementAge - (applyMods i ov).currentAge + 1).toNat := by
    rw [calculateScenario_data, simFrom_length]
  have hmr : 0 < (applyMods i ov).expectedReturn / 100 / 12 := by positivity
  constructor
  · intro h0
    have hA := simFrom_amount (applyMods i ov).currentAge
      ((applyMods i ov).retirementAge - (applyMods i ov).currentAge)
      ((applyMods i ov).expectedReturn / 100 / 12) (applyMods i ov).monthlyContribution
      (applyMods i ov).inflationRate
      ((applyMods i ov).retirementAge - (applyMods i ov).currentAge + 1).toNat 0
      (applyMods i ov).currentSavings hconstraint 0 h0
    have hmin : min (0 + 1)
        (((applyMods i ov).retirementAge - (applyMods i ov).currentAge + 1).toNat - 1)
        = 1 := by
      omega
    rw [hmin, Function.iterate_one] at hA
    exact hA
  · intro p hp
    obtain ⟨⟨k, hk⟩, hpk⟩ := List.mem_iff_get.mp hp
    rw [← hpk]
    have hA := simFrom_amount (applyMods i ov).currentAge
      ((applyMods i ov).retirementAge - (applyMods i ov).currentAge)
      ((applyMods i ov).expectedReturn / 100 / 12) (applyMods i ov).monthlyContribution
      (applyMods i ov).inflationRate
      ((applyMods i ov).retirementAge - (applyMods i ov).currentAge + 1).toNat 0
      (applyMods i ov).currentSavings hconstraint k hk
    have hgoal : ((calculateScenario i n c ov).data.get ⟨k, hk⟩).amount
        = (growYear ((applyMods i ov).expectedReturn / 100 / 12)
            (applyMods i ov).monthlyContribution)^[min (k + 1)
              (((applyMods i ov).retirementAge - (applyMods i ov).currentAge + 1).toNat - 1)]
            (applyMods i ov).currentSavings := hA
    rw [hgoal]
    exact ne_of_gt (lt_iterate_growYear hmr hmc hs hpos (by omega))

/-- C10 witness: the amended theorem applied to `exG`. -/
theorem c10_firstYearGrowth_witness :
    applyMods exG {} = exG ∧
    (1 : Int) ≤ exG.retirementAge - exG.currentAge ∧
    (0 : ℚ) ≤ exG.currentSavings ∧
    (0 : ℚ) ≤ exG.monthlyContribution ∧
    (0 : ℚ) < exG.expectedReturn ∧
    (0 < exG.currentSavings ∨ 0 < exG.monthlyContribution) ∧
    ((∀ (h0 : 0 < (calculateScenario exG "n" "c" {}).data.length),
        ((calculateScenario exG "n" "c" {}).data.get ⟨0, h0⟩).amount
          = (monthlyStep (exG.expectedReturn / 100 / 12) exG.monthlyContribution)^[12]
              exG.currentSavings) ∧
     (∀ p ∈ (calculateScenario exG "n" "c" {}).data, p.amount ≠ exG.currentSavings)) :=
  ⟨rfl, by decide, by decide, by decide, by decide, Or.inl (by decide),
    c10_firstYearGrowth exG "n" "c" {} exG rfl (by decide) (by decide) (by decide)
      (by decide) (Or.inl (by decide))⟩

end VibeSim
